import Mathlib

/-!
Shallow embedding of `src/app_Version2.py`, a Streamlit dashboard that runs a
pretrained spaCy NER model over user text and renders the resulting entity
sequence through four views (highlighted text, entity list, entity-count bar
chart, scatter visualization), plus a CSV export.  The external NLP model is
treated as an opaque parameter (a function from text to an entity sequence);
everything the script itself computes is embedded faithfully below.
-/

namespace NER

/-- An entity span as produced by the external model: `ent.text` and
`ent.label_` are the only fields the application reads. -/
structure Entity where
  text : String
  label : String
deriving Repr, DecidableEq

/-- The static entity-color lookup table, `entity_colors` (lines 49-65 of
`app_Version2.py`). -/
def entity_colors : List (String × String) :=
  [("PERSON", "#7aecec"), ("ORG", "#feca74"), ("GPE", "#ff9561"),
   ("LOC", "#ff8197"), ("DATE", "#bfe1d9"), ("TIME", "#bfe1d9"),
   ("MONEY", "#e4e7d2"), ("PERCENT", "#e4e7d2"), ("WORK_OF_ART", "#f0d0ff"),
   ("FAC", "#aab7d4"), ("PRODUCT", "#bfeeb7"), ("EVENT", "#f89e96"),
   ("LAW", "#ddd1ff"), ("LANGUAGE", "#ff8461"), ("QUANTITY", "#e4e7d2")]

/-- Python's `entity_colors.get(label, "#cccccc")` (lines 114 and 155). -/
def colorFor (label : String) : String :=
  (entity_colors.lookup label).getD "#cccccc"

/-- Characters stripped by Python's `str.strip()` with no argument
(ASCII whitespace; the source text is ASCII so the unicode spaces that
Python also strips do not change the embedding). -/
def pySpace (c : Char) : Bool :=
  c = ' ' || c = '\t' || c = '\n' || c = '\r' || c = '\x0b' || c = '\x0c'

/-- Python's `text_input.strip()` (line 74): drop leading and trailing
whitespace. -/
def pyStrip (s : String) : String :=
  String.mk (((s.data.dropWhile pySpace).reverse.dropWhile pySpace).reverse)

/-- Keys of `Counter(labels)` in Python: the distinct elements in order of
first occurrence (Python dicts preserve insertion order). -/
def firstOccurrences : List String → List String
  | [] => []
  | x :: xs => x :: (firstOccurrences xs).filter (fun b => b ≠ x)

/-- The model of `Counter([ent.label_ for ent in doc.ents])` (line 106):
an association of each distinct label, in first-occurrence order, with its
number of occurrences. -/
def entityCounts (labels : List String) : List (String × Nat) :=
  (firstOccurrences labels).map (fun k => (k, labels.count k))

/-- One bar of the `tab3` frequency chart: `ax.bar(entity_types, counts,
color=colors)` with the count annotated above the bar (lines 109-129). -/
structure Bar where
  label : String
  height : Nat
  color : String
deriving Repr, DecidableEq

/-- The bars of the frequency chart, in the order matplotlib receives them:
`entity_types = list(entity_counts.keys())`, `counts = list(...values())`,
`colors = [entity_colors.get(e, "#cccccc") for e in entity_types]`. -/
def bars (ents : List Entity) : List Bar :=
  (entityCounts (ents.map (·.label))).map
    (fun kc => { label := kc.1, height := kc.2, color := colorFor kc.1 })

/-- Rows of the `tab2` table: `entities_data = [(ent.text, ent.label_) for
ent in doc.ents]` (line 91). -/
def entitiesData (ents : List Entity) : List (String × String) :=
  ents.map (fun e => (e.text, e.label))

/-- One point of the `tab4` scatter: plotted at `(i, type_to_num[label])`,
colored by `entity_colors.get(label, "#cccccc")`, annotated with the entity
text (lines 150-162). -/
structure ScatterPoint where
  x : Nat
  y : Nat
  color : String
  annotatedText : String
deriving Repr, DecidableEq

/-- One legend entry of the `tab4` figure: a colored marker labeled with the
entity type (lines 165-171). -/
structure LegendEntry where
  label : String
  color : String
deriving Repr, DecidableEq

/-- The `tab4` figure, parametrized by `uniqueTypes`, the embedding of
`unique_types = list(set(entity_types))` (line 150): Python's `set` iterates
in an unspecified order, so the renderer is stated for any duplicate-free
enumeration of the labels present.  `type_to_num` maps each type to its
index in that enumeration; `y_values`, `colors` and the annotations follow
lines 152-162. -/
def scatterFig (uniqueTypes : List String) (ents : List Entity) :
    List ScatterPoint × List LegendEntry :=
  (ents.enum.map (fun ie =>
      { x := ie.1
        y := uniqueTypes.indexOf ie.2.label
        color := colorFor ie.2.label
        annotatedText := ie.2.text }),
   uniqueTypes.map (fun t => { label := t, color := colorFor t }))

/-- Whether Python's `csv` writer (used by `df.to_csv`, QUOTE_MINIMAL, comma
delimiter, `"` quotechar, `\n` line terminator) must quote a field: it does so
exactly when the field contains the delimiter, the quote character, or a CR or
LF. -/
def needsQuoting (f : List Char) : Bool :=
  f.any (fun c => c = ',' || c = '"' || c = '\n' || c = '\r')

/-- Doubling of embedded quote characters inside a quoted CSV field. -/
def escapeQuotes : List Char → List Char
  | [] => []
  | c :: cs =>
    if c = '"' then '"' :: '"' :: escapeQuotes cs else c :: escapeQuotes cs

/-- Serialization of one CSV field, quoting only when required
(QUOTE_MINIMAL). -/
def encodeField (f : List Char) : List Char :=
  if needsQuoting f then '"' :: (escapeQuotes f ++ ['"']) else f

/-- Serialization of one two-column CSV row, terminated by `\n`. -/
def encodeRow (r : List Char × List Char) : List Char :=
  encodeField r.1 ++ ',' :: (encodeField r.2 ++ ['\n'])

/-- The header row written by `df.to_csv(index=False)` for the columns
`["Entity", "Type"]` (lines 92 and 96). -/
def csvHeaderRow : List Char × List Char :=
  ("Entity".data, "Type".data)

/-- The embedding of `df.to_csv(index=False)` (line 96): the header row
followed by one row per entity, in document order. -/
def toCsv (ents : List Entity) : String :=
  String.mk
    (((csvHeaderRow :: (ents.map (fun e => (e.text.data, e.label.data)))).map
        encodeRow).flatten)

/-- Reading of the body of a quoted CSV field, after the opening quote:
`""` stands for one quote character; a lone quote ends the field.  Returns
the field content and the unconsumed input, or `none` if the field is
unterminated. -/
def parseQuotedBody : List Char → Option (List Char × List Char)
  | [] => none
  | c :: rest =>
    if c = '"' then
      match rest with
      | [] => some ([], [])
      | c2 :: rest2 =>
        if c2 = '"' then
          (parseQuotedBody rest2).map (fun p => ('"' :: p.1, p.2))
        else some ([], rest)
    else (parseQuotedBody rest).map (fun p => (c :: p.1, p.2))

/-- Reading of an unquoted CSV field: everything up to the next comma or
newline. -/
def parseUnquoted : List Char → List Char × List Char
  | [] => ([], [])
  | c :: rest =>
    if c = ',' || c = '\n' then ([], c :: rest)
    else
      let p := parseUnquoted rest
      (c :: p.1, p.2)

/-- Reading of one CSV field, quoted or not. -/
def parseField : List Char → Option (List Char × List Char)
  | [] => some ([], [])
  | c :: rest =>
    if c = '"' then parseQuotedBody rest
    else parseUnquoted (c :: rest)

/-- Reading of one two-column CSV row followed by a newline. -/
def parseRow (input : List Char) : Option ((List Char × List Char) × List Char) :=
  match parseField input with
  | none => none
  | some (f1, r1) =>
    match r1 with
    | ',' :: r2 =>
      match parseField r2 with
      | none => none
      | some (f2, r3) =>
        match r3 with
        | '\n' :: r4 => some ((f1, f2), r4)
        | _ => none
    | _ => none

/-- Reading of a sequence of CSV rows; `fuel` bounds the recursion depth and
is instantiated with the input length. -/
def parseRowsFuel : Nat → List Char → Option (List (List Char × List Char))
  | 0, input => if input = [] then some [] else none
  | fuel + 1, input =>
    if input = [] then some []
    else
      match parseRow input with
      | none => none
      | some (row, rest) =>
        match parseRowsFuel fuel rest with
        | none => none
        | some rows => some (row :: rows)

/-- Reading a whole CSV text back into its list of (text, category) rows. -/
def parseCsv (s : String) : Option (List (String × String)) :=
  (parseRowsFuel s.data.length s.data).map
    (fun rows => rows.map (fun r => (String.mk r.1, String.mk r.2)))

/-- Output of one result tab: either the `st.info("No entities were detected
in the text.")` notice, or rendered content. -/
inductive ViewOutput (α : Type) where
  | notice : ViewOutput α
  | content : α → ViewOutput α
deriving Repr, DecidableEq

/-- The `tab1` renderer (lines 82-86): `displacy.render` is called
unconditionally on the document — there is no empty-sequence branch in this
tab — so the output is always content (the displacy markup, abstracted as the
entity sequence it highlights). -/
def tab1Render (ents : List Entity) : ViewOutput (List Entity) :=
  ViewOutput.content ents

/-- The `tab2` renderer (lines 88-101): when `len(doc.ents) > 0`, the
data-frame rows and the downloadable CSV; otherwise the notice. -/
def tab2Render (ents : List Entity) :
    ViewOutput (List (String × String) × String) :=
  if ents.length > 0 then ViewOutput.content (entitiesData ents, toCsv ents)
  else ViewOutput.notice

/-- The `tab3` renderer (lines 103-133): when `len(doc.ents) > 0`, the
frequency bar chart; otherwise the notice. -/
def tab3Render (ents : List Entity) : ViewOutput (List Bar) :=
  if ents.length > 0 then ViewOutput.content (bars ents)
  else ViewOutput.notice

/-- The `tab4` renderer (lines 135-179): when `len(doc.ents) > 0`, the
scatter figure; otherwise the notice.  The executable renderer instantiates
`list(set(entity_types))` with the first-occurrence enumeration, one
admissible order for Python's unordered `set`. -/
def tab4Render (ents : List Entity) :
    ViewOutput (List ScatterPoint × List LegendEntry) :=
  if ents.length > 0 then
    ViewOutput.content (scatterFig (firstOccurrences (ents.map (·.label))) ents)
  else ViewOutput.notice

/-- The remediation command named in the sidebar error of line 32. -/
def downloadCommand (name : String) : String :=
  "python -m spacy download " ++ name

/-- The sidebar error shown when loading the model raises (line 32). -/
def modelNotFoundMessage (name : String) : String :=
  "Error: Model \x27" ++ name ++
    "\x27 not found. Please install it with \x27" ++
    downloadCommand name ++ "\x27"

/-- The sidebar success message (line 30). -/
def modelLoadedMessage (name : String) : String :=
  "Model \x27" ++ name ++ "\x27 loaded successfully!"

/-- The `st.error` validation message for blank input (line 75). -/
def emptyInputMessage : String :=
  "Please enter some text to analyze."

/-- Everything one pass of the script surfaces: sidebar messages, whether
`st.stop()` halted the script, the blank-input validation error, how many
times the model was invoked on text, and the four tabs (present only when an
analysis ran). -/
structure AppOutput where
  sidebarError : Option String
  sidebarSuccess : Option String
  halted : Bool
  inputError : Option String
  inferenceCalls : Nat
  tab1 : Option (ViewOutput (List Entity))
  tab2 : Option (ViewOutput (List (String × String) × String))
  tab3 : Option (ViewOutput (List Bar))
  tab4 : Option (ViewOutput (List ScatterPoint × List LegendEntry))

/-- One pass of the script (lines 28-179) for a session whose model-load
attempt yielded `loadRes`: the `try/except` around `load_model` either binds
`nlp` or shows the error and calls `st.stop()`; then, when the Analyze button
was clicked, blank input is rejected before inference and otherwise
`doc = nlp(text_input)` feeds the four tabs.  The external model is the
opaque function `ε`-failing `loadRes` carries on success. -/
def runApp {ε : Type} (modelName : String)
    (loadRes : Except ε (String → List Entity))
    (clicked : Bool) (textInput : String) : AppOutput :=
  match loadRes with
  | Except.error _ =>
    { sidebarError := some (modelNotFoundMessage modelName)
      sidebarSuccess := none
      halted := true
      inputError := none
      inferenceCalls := 0
      tab1 := none, tab2 := none, tab3 := none, tab4 := none }
  | Except.ok nlp =>
    if clicked then
      if pyStrip textInput = "" then
        { sidebarError := none
          sidebarSuccess := some (modelLoadedMessage modelName)
          halted := false
          inputError := some emptyInputMessage
          inferenceCalls := 0
          tab1 := none, tab2 := none, tab3 := none, tab4 := none }
      else
        let ents := nlp textInput
        { sidebarError := none
          sidebarSuccess := some (modelLoadedMessage modelName)
          halted := false
          inputError := none
          inferenceCalls := 1
          tab1 := some (tab1Render ents)
          tab2 := some (tab2Render ents)
          tab3 := some (tab3Render ents)
          tab4 := some (tab4Render ents) }
    else
      { sidebarError := none
        sidebarSuccess := some (modelLoadedMessage modelName)
        halted := false
        inputError := none
        inferenceCalls := 0
        tab1 := none, tab2 := none, tab3 := none, tab4 := none }

/-- Modelled from the spec: the session-scoped memoization `@st.cache_resource`
applies to `load_model` (lines 12-14).  The decorator itself is Streamlit
library code not present in this repository; per the spec's contract the cache
is keyed by the model identifier, a hit returns the stored inference object
without calling the loader, and a successful miss stores the object once.  The
third component counts how many times the underlying loader ran. -/
def cachedLoad {μ : Type} (loader : String → Except String μ)
    (cache : List (String × μ)) (name : String) :
    Except String μ × List (String × μ) × Nat :=
  match cache.lookup name with
  | some m => (Except.ok m, cache, 0)
  | none =>
    match loader name with
    | Except.ok m => (Except.ok m, cache ++ [(name, m)], 1)
    | Except.error e => (Except.error e, cache, 1)

/-! ### Lemmas about the Counter model -/

theorem mem_firstOccurrences (x : String) :
    ∀ (l : List String), x ∈ firstOccurrences l ↔ x ∈ l
  | [] => by simp [firstOccurrences]
  | a :: l => by
    simp only [firstOccurrences, List.mem_cons, List.mem_filter,
      decide_eq_true_eq]
    by_cases hxa : x = a
    · simp [hxa]
    · simp [hxa, mem_firstOccurrences x l]

theorem nodup_firstOccurrences : ∀ (l : List String), (firstOccurrences l).Nodup
  | [] => by simp [firstOccurrences]
  | a :: l => by
    simp only [firstOccurrences, List.nodup_cons]
    refine ⟨fun h => ?_, (nodup_firstOccurrences l).filter _⟩
    have := (List.mem_filter.mp h).2
    simp at this

theorem pairwise_indexOf_firstOccurrences : ∀ (l : List String),
    (firstOccurrences l).Pairwise (fun a b => l.indexOf a < l.indexOf b)
  | [] => by simp [firstOccurrences]
  | x :: l => by
    simp only [firstOccurrences, List.pairwise_cons]
    constructor
    · intro b hb
      have hbx : b ≠ x := by
        have := (List.mem_filter.mp hb).2
        simpa using this
      rw [List.indexOf_cons_self, List.indexOf_cons_ne _ hbx.symm]
      exact Nat.succ_pos _
    · have hp : ((firstOccurrences l).filter (fun b => b ≠ x)).Pairwise
          (fun a b => l.indexOf a < l.indexOf b) :=
        List.Pairwise.sublist (List.filter_sublist (firstOccurrences l))
          (pairwise_indexOf_firstOccurrences l)
      refine hp.imp_of_mem ?_
      intro a b ha hb hlt
      have hax : a ≠ x := by
        have := (List.mem_filter.mp ha).2
        simpa using this
      have hbx : b ≠ x := by
        have := (List.mem_filter.mp hb).2
        simpa using this
      rw [List.indexOf_cons_ne _ hax.symm, List.indexOf_cons_ne _ hbx.symm]
      exact Nat.succ_lt_succ hlt

theorem firstOccurrences_perm_dedup (l : List String) :
    (firstOccurrences l).Perm l.dedup := by
  refine (List.perm_ext_iff_of_nodup (nodup_firstOccurrences l)
    l.nodup_dedup).mpr ?_
  intro a
  rw [mem_firstOccurrences, List.mem_dedup]

theorem sum_counts_firstOccurrences (l : List String) :
    ((firstOccurrences l).map (fun k => l.count k)).sum = l.length := by
  have hperm := (firstOccurrences_perm_dedup l).map (fun k => l.count k)
  rw [hperm.sum_eq]
  exact List.sum_map_count_dedup_eq_length l

/-! ### Lemmas about the CSV serialization -/

theorem parseQuotedBody_encode (f : List Char) : ∀ (rest : List Char),
    rest.head? ≠ some '"' →
    parseQuotedBody (escapeQuotes f ++ '"' :: rest) = some (f, rest) := by
  induction f with
  | nil =>
    intro rest h
    rw [show escapeQuotes [] ++ '"' :: rest = '"' :: rest from rfl,
      parseQuotedBody.eq_def]
    cases rest with
    | nil => simp
    | cons c2 r2 =>
      have hc2 : ¬(c2 = '"') := by
        intro hc
        exact h (by simp [hc])
      simp [hc2]
  | cons c cs ih =>
    intro rest h
    by_cases hc : c = '"'
    · subst hc
      rw [show escapeQuotes ('"' :: cs) ++ '"' :: rest
          = '"' :: '"' :: (escapeQuotes cs ++ '"' :: rest) from by
            simp [escapeQuotes], parseQuotedBody.eq_def]
      simp [ih rest h]
    · rw [show escapeQuotes (c :: cs) ++ '"' :: rest
          = c :: (escapeQuotes cs ++ '"' :: rest) from by
            simp [escapeQuotes, hc], parseQuotedBody.eq_def]
      simp [hc, ih rest h]

theorem parseUnquoted_encode (f : List Char) : ∀ (rest : List Char),
    (∀ c ∈ f, ¬(c = ',' || c = '"' || c = '\n' || c = '\r') = true) →
    (rest.head? = some ',' ∨ rest.head? = some '\n') →
    parseUnquoted (f ++ rest) = (f, rest) := by
  induction f with
  | nil =>
    intro rest _ hrest
    cases rest with
    | nil => simp at hrest
    | cons c r =>
      have hc : (c = ',' || c = '\n') = true := by
        rcases hrest with h | h <;> simp_all
      simp [parseUnquoted, hc]
  | cons c cs ih =>
    intro rest hf hrest
    have hc := hf c (by simp)
    have hcomma : ¬(c = ',') := by intro h; simp [h] at hc
    have hnl : ¬(c = '\n') := by intro h; simp [h] at hc
    simp only [List.cons_append, parseUnquoted]
    rw [if_neg (by simp [hcomma, hnl])]
    simp [ih rest (fun d hd => hf d (by simp [hd])) hrest]

theorem parseField_encode (f rest : List Char)
    (hrest : rest.head? = some ',' ∨ rest.head? = some '\n') :
    parseField (encodeField f ++ rest) = some (f, rest) := by
  have hrq : rest.head? ≠ some '"' := by
    rcases hrest with h | h <;> simp [h]
  by_cases hq : needsQuoting f
  · simp only [encodeField, if_pos hq, List.cons_append, List.append_assoc,
      List.singleton_append]
    simp [parseField, parseQuotedBody_encode f rest hrq]
  · have hf : ∀ c ∈ f, ¬(c = ',' || c = '"' || c = '\n' || c = '\r') = true := by
      intro c hcf
      intro hc
      exact hq (List.any_eq_true.mpr ⟨c, hcf, hc⟩)
    simp only [encodeField, if_neg hq]
    cases f with
    | nil =>
      cases rest with
      | nil => simp at hrest
      | cons c r =>
        have hc : (c = ',' || c = '\n') = true := by
          rcases hrest with h | h <;> simp_all
        have hcq : ¬(c = '"') := by
          rcases (Bool.or_eq_true _ _).mp hc with h | h <;> simp_all
        have hu := parseUnquoted_encode [] (c :: r) (by simp) hrest
        simp only [List.nil_append] at hu
        simp only [List.nil_append, parseField, if_neg hcq]
        simp [hu]
    | cons c cs =>
      have hc := hf c (by simp)
      have hcq : ¬(c = '"') := by intro h; simp [h] at hc
      simp only [List.cons_append, parseField, if_neg hcq]
      rw [← List.cons_append]
      rw [parseUnquoted_encode (c :: cs) rest hf hrest]

theorem parseRow_encode (a b rest : List Char) :
    parseRow (encodeRow (a, b) ++ rest) = some ((a, b), rest) := by
  have h1 : parseField (encodeField a ++ (',' :: (encodeField b ++ '\n' :: rest)))
      = some (a, ',' :: (encodeField b ++ '\n' :: rest)) :=
    parseField_encode a _ (Or.inl rfl)
  have h2 : parseField (encodeField b ++ '\n' :: rest)
      = some (b, '\n' :: rest) :=
    parseField_encode b _ (Or.inr rfl)
  simp only [encodeRow, List.cons_append, List.append_assoc,
    List.singleton_append, List.nil_append]
  simp [parseRow, h1, h2]

theorem encodeRow_ne_nil (r : List Char × List Char) : encodeRow r ≠ [] := by
  simp [encodeRow]

theorem one_le_length_encodeRow (r : List Char × List Char) :
    1 ≤ (encodeRow r).length :=
  List.length_pos.mpr (encodeRow_ne_nil r)

theorem parseRowsFuel_encode :
    ∀ (rows : List (List Char × List Char)) (fuel : Nat),
    rows.length ≤ fuel →
    parseRowsFuel fuel ((rows.map encodeRow).flatten) = some rows := by
  intro rows
  induction rows with
  | nil =>
    intro fuel _
    cases fuel <;> simp [parseRowsFuel]
  | cons r rs ih =>
    intro fuel hfuel
    cases fuel with
    | zero => simp at hfuel
    | succ f =>
      have hne : encodeRow r ++ (rs.map encodeRow).flatten ≠ [] :=
        List.append_ne_nil_of_left_ne_nil (encodeRow_ne_nil r) _
      obtain ⟨a, b⟩ := r
      simp only [List.map_cons, List.flatten_cons, parseRowsFuel]
      rw [if_neg hne, parseRow_encode a b _]
      simp [ih f (Nat.le_of_succ_le_succ hfuel)]

theorem rows_length_le_flatten_length (rows : List (List Char × List Char)) :
    rows.length ≤ ((rows.map encodeRow).flatten).length := by
  induction rows with
  | nil => simp
  | cons r rs ih =>
    simp only [List.map_cons, List.flatten_cons, List.length_append,
      List.length_cons]
    have := one_le_length_encodeRow r
    omega

theorem map_mk_map_data (ents : List Entity) :
    (ents.map (fun e => (e.text.data, e.label.data))).map
        (fun r => (String.mk r.1, String.mk r.2)) =
      ents.map (fun e => (e.text, e.label)) := by
  induction ents with
  | nil => rfl
  | cons e es ih => simp [ih]

theorem parseCsv_toCsv (ents : List Entity) :
    parseCsv (toCsv ents) =
      some (("Entity", "Type") :: ents.map (fun e => (e.text, e.label))) := by
  unfold parseCsv toCsv
  rw [show (String.mk (((csvHeaderRow ::
      (ents.map (fun e => (e.text.data, e.label.data)))).map
      encodeRow).flatten)).data = ((csvHeaderRow ::
      (ents.map (fun e => (e.text.data, e.label.data)))).map
      encodeRow).flatten from rfl]
  rw [parseRowsFuel_encode _ _ (rows_length_le_flatten_length _)]
  rw [Option.map_some']
  refine congrArg some ?_
  rw [List.map_cons, map_mk_map_data]
  rfl

/-! ### Further helper lemmas -/

theorem pyStrip_eq_empty_of_all_space (s : String)
    (h : ∀ c ∈ s.data, pySpace c = true) : pyStrip s = "" := by
  unfold pyStrip
  rw [List.dropWhile_eq_nil_iff.mpr h]
  rfl

theorem lookup_append_self {μ : Type} (cache : List (String × μ))
    (name : String) (m : μ) (h : cache.lookup name = none) :
    (cache ++ [(name, m)]).lookup name = some m := by
  induction cache with
  | nil => simp [List.lookup]
  | cons kv t ih =>
    obtain ⟨k, v⟩ := kv
    cases hk : (name == k) with
    | true => simp [List.lookup, hk] at h
    | false =>
      simp only [List.lookup, hk] at h
      simp only [List.cons_append, List.lookup, hk]
      exact ih h

theorem bars_map_label (ents : List Entity) :
    (bars ents).map (fun b => b.label) =
      firstOccurrences (ents.map (fun e => e.label)) := by
  unfold bars entityCounts
  rw [List.map_map, List.map_map]
  exact (List.map_congr_left (fun k _ => rfl)).trans (List.map_id _)

theorem bars_map_height (ents : List Entity) :
    (bars ents).map (fun b => b.height) =
      (firstOccurrences (ents.map (fun e => e.label))).map
        (fun k => (ents.map (fun e => e.label)).count k) := by
  unfold bars entityCounts
  rw [List.map_map, List.map_map]
  exact List.map_congr_left (fun k _ => rfl)

/-! ### Claim theorems -/

/-- C1 (counterexample): on an analysis that detects zero entities, the
Highlighted Text tab does NOT show the no-entities notice — lines 82-86 call
`displacy.render` unconditionally, with no empty-sequence branch — so the
claim that all four views show the notice is false. -/
theorem c1_counterexample :
    (runApp "en_core_web_sm"
        (Except.ok (fun _ => ([] : List Entity)) : Except Unit _)
        true "Hello world").tab1 = some (ViewOutput.content []) ∧
    (runApp "en_core_web_sm"
        (Except.ok (fun _ => ([] : List Entity)) : Except Unit _)
        true "Hello world").tab1 ≠ some ViewOutput.notice := by
  constructor <;> decide

/-- C1 (amended): on an analysis that detects zero entities, the Entity List,
Entity Count and Entity Visualization tabs each show the no-entities notice
(and hence render no table or chart), while the Highlighted Text tab renders
the displacy markup of the entity-free document and shows no notice. -/
theorem c1_empty_entity_views {ε : Type} (name text : String)
    (nlp : String → List Entity) (hstrip : ¬(pyStrip text = ""))
    (hempty : nlp text = []) :
    (runApp (ε := ε) name (Except.ok nlp) true text).tab2 =
        some ViewOutput.notice ∧
    (runApp (ε := ε) name (Except.ok nlp) true text).tab3 =
        some ViewOutput.notice ∧
    (runApp (ε := ε) name (Except.ok nlp) true text).tab4 =
        some ViewOutput.notice ∧
    (runApp (ε := ε) name (Except.ok nlp) true text).tab1 =
        some (ViewOutput.content []) := by
  simp [runApp, hstrip, hempty, tab1Render, tab2Render, tab3Render, tab4Render]

/-- C1 (witness for the amended theorem): a concrete session with a model that
finds no entities. -/
theorem c1_empty_entity_views_witness :
    (runApp (ε := Unit) "en_core_web_sm" (Except.ok (fun _ => []))
        true "Hello world").tab2 = some ViewOutput.notice ∧
    (runApp (ε := Unit) "en_core_web_sm" (Except.ok (fun _ => []))
        true "Hello world").tab3 = some ViewOutput.notice ∧
    (runApp (ε := Unit) "en_core_web_sm" (Except.ok (fun _ => []))
        true "Hello world").tab4 = some ViewOutput.notice ∧
    (runApp (ε := Unit) "en_core_web_sm" (Except.ok (fun _ => []))
        true "Hello world").tab1 = some (ViewOutput.content []) :=
  c1_empty_entity_views "en_core_web_sm" "Hello world" (fun _ => [])
    (by decide) rfl

/-- C2: when loading the selected model fails, the sidebar shows exactly the
model-unavailable error of line 32 — which contains the remediation command
`python -m spacy download <name>` — the script halts via `st.stop()`, no
inference is attempted and no result views are produced. -/
theorem c2_model_load_failure {ε : Type} (name text : String) (e : ε)
    (clicked : Bool) :
    (runApp name (Except.error e : Except ε (String → List Entity))
        clicked text).sidebarError = some (modelNotFoundMessage name) ∧
    (∃ pre post : String, modelNotFoundMessage name =
        pre ++ downloadCommand name ++ post) ∧
    (runApp name (Except.error e : Except ε (String → List Entity))
        clicked text).halted = true ∧
    (runApp name (Except.error e : Except ε (String → List Entity))
        clicked text).inferenceCalls = 0 ∧
    (runApp name (Except.error e : Except ε (String → List Entity))
        clicked text).tab1 = none ∧
    (runApp name (Except.error e : Except ε (String → List Entity))
        clicked text).tab2 = none ∧
    (runApp name (Except.error e : Except ε (String → List Entity))
        clicked text).tab3 = none ∧
    (runApp name (Except.error e : Except ε (String → List Entity))
        clicked text).tab4 = none := by
  refine ⟨rfl, ⟨"Error: Model \x27" ++ name ++
    "\x27 not found. Please install it with \x27", "\x27", ?_⟩,
    rfl, rfl, rfl, rfl, rfl, rfl⟩
  simp [modelNotFoundMessage, String.append_assoc]

/-- C3: submitting empty or whitespace-only text yields the empty-input
validation error, invokes no inference, produces no result views, and does
not halt the session (the user may retry immediately). -/
theorem c3_blank_input_rejected {ε : Type} (name text : String)
    (nlp : String → List Entity)
    (h : ∀ c ∈ text.data, pySpace c = true) :
    (runApp (ε := ε) name (Except.ok nlp) true text).inputError =
        some emptyInputMessage ∧
    (runApp (ε := ε) name (Except.ok nlp) true text).inferenceCalls = 0 ∧
    (runApp (ε := ε) name (Except.ok nlp) true text).tab1 = none ∧
    (runApp (ε := ε) name (Except.ok nlp) true text).tab2 = none ∧
    (runApp (ε := ε) name (Except.ok nlp) true text).tab3 = none ∧
    (runApp (ε := ε) name (Except.ok nlp) true text).tab4 = none ∧
    (runApp (ε := ε) name (Except.ok nlp) true text).halted = false := by
  have hs := pyStrip_eq_empty_of_all_space text h
  simp [runApp, hs]

/-- C3 (witness): a concrete whitespace-only submission. -/
theorem c3_blank_input_rejected_witness :
    (runApp (ε := Unit) "en_core_web_sm"
        (Except.ok (fun _ => [])) true "  \t\n ").inputError =
        some emptyInputMessage ∧
    (runApp (ε := Unit) "en_core_web_sm"
        (Except.ok (fun _ => [])) true "  \t\n ").inferenceCalls = 0 ∧
    (runApp (ε := Unit) "en_core_web_sm"
        (Except.ok (fun _ => [])) true "  \t\n ").tab1 = none ∧
    (runApp (ε := Unit) "en_core_web_sm"
        (Except.ok (fun _ => [])) true "  \t\n ").tab2 = none ∧
    (runApp (ε := Unit) "en_core_web_sm"
        (Except.ok (fun _ => [])) true "  \t\n ").tab3 = none ∧
    (runApp (ε := Unit) "en_core_web_sm"
        (Except.ok (fun _ => [])) true "  \t\n ").tab4 = none ∧
    (runApp (ε := Unit) "en_core_web_sm"
        (Except.ok (fun _ => [])) true "  \t\n ").halted = false :=
  c3_blank_input_rejected "en_core_web_sm" "  \t\n " (fun _ => [])
    (by decide)

/-- C10: the bare `except:` of line 31 treats every load failure alike:
whatever the exception value, the session output is identical — the fixed
model-not-found message, a halt, and no inference — so no load failure
propagates as any other error. -/
theorem c10_all_load_errors_equal {ε : Type} (name text : String)
    (e1 e2 : ε) (clicked : Bool) :
    runApp name (Except.error e1 : Except ε (String → List Entity))
        clicked text =
      runApp name (Except.error e2 : Except ε (String → List Entity))
        clicked text ∧
    (runApp name (Except.error e1 : Except ε (String → List Entity))
        clicked text).sidebarError = some (modelNotFoundMessage name) ∧
    (runApp name (Except.error e1 : Except ε (String → List Entity))
        clicked text).halted = true ∧
    (runApp name (Except.error e1 : Except ε (String → List Entity))
        clicked text).inferenceCalls = 0 :=
  ⟨rfl, rfl, rfl, rfl⟩

/-- C4: for a non-empty entity sequence the frequency chart renders exactly
one bar per distinct category present in the sequence (bar labels are
duplicate-free and are exactly the categories occurring), each bar's
annotated count equals the number of occurrences of that category, and bars
appear in first-occurrence order of the categories. -/
theorem c4_frequency_chart (ents : List Entity) (hne : ents ≠ []) :
    ((bars ents).map (fun b => b.label)).Nodup ∧
    (∀ c, c ∈ (bars ents).map (fun b => b.label) ↔
        c ∈ ents.map (fun e => e.label)) ∧
    (∀ b ∈ bars ents,
      b.height = (ents.map (fun e => e.label)).count b.label) ∧
    ((bars ents).map (fun b => b.label)).Pairwise
      (fun a b => (ents.map (fun e => e.label)).indexOf a <
        (ents.map (fun e => e.label)).indexOf b) ∧
    tab3Render ents = ViewOutput.content (bars ents) := by
  have hpos := List.length_pos.mpr hne
  refine ⟨?_, ?_, ?_, ?_, ?_⟩
  · rw [bars_map_label]
    exact nodup_firstOccurrences _
  · intro c
    rw [bars_map_label]
    exact mem_firstOccurrences c _
  · intro b hb
    simp only [bars, entityCounts, List.map_map, List.mem_map] at hb
    obtain ⟨k, _, rfl⟩ := hb
    rfl
  · rw [bars_map_label]
    exact pairwise_indexOf_firstOccurrences _
  · simp [tab3Render, hpos]

/-- C4 (witness): three PERSON mentions and one ORG mention yield bars
PERSON with count 3 and ORG with count 1, in first-occurrence order. -/
theorem c4_frequency_chart_witness :
    (((bars [⟨"Tim", "PERSON"⟩, ⟨"Apple", "ORG"⟩, ⟨"Cook", "PERSON"⟩,
        ⟨"Steve", "PERSON"⟩]).map (fun b => b.label)).Nodup ∧
    (∀ c, c ∈ (bars [⟨"Tim", "PERSON"⟩, ⟨"Apple", "ORG"⟩, ⟨"Cook", "PERSON"⟩,
        ⟨"Steve", "PERSON"⟩]).map (fun b => b.label) ↔
        c ∈ ([⟨"Tim", "PERSON"⟩, ⟨"Apple", "ORG"⟩, ⟨"Cook", "PERSON"⟩,
        ⟨"Steve", "PERSON"⟩] : List Entity).map (fun e => e.label)) ∧
    (∀ b ∈ bars [⟨"Tim", "PERSON"⟩, ⟨"Apple", "ORG"⟩, ⟨"Cook", "PERSON"⟩,
        ⟨"Steve", "PERSON"⟩],
      b.height = (([⟨"Tim", "PERSON"⟩, ⟨"Apple", "ORG"⟩, ⟨"Cook", "PERSON"⟩,
        ⟨"Steve", "PERSON"⟩] : List Entity).map
          (fun e => e.label)).count b.label) ∧
    ((bars [⟨"Tim", "PERSON"⟩, ⟨"Apple", "ORG"⟩, ⟨"Cook", "PERSON"⟩,
        ⟨"Steve", "PERSON"⟩]).map (fun b => b.label)).Pairwise
      (fun a b => (([⟨"Tim", "PERSON"⟩, ⟨"Apple", "ORG"⟩, ⟨"Cook", "PERSON"⟩,
        ⟨"Steve", "PERSON"⟩] : List Entity).map (fun e => e.label)).indexOf a <
        (([⟨"Tim", "PERSON"⟩, ⟨"Apple", "ORG"⟩, ⟨"Cook", "PERSON"⟩,
        ⟨"Steve", "PERSON"⟩] : List Entity).map
          (fun e => e.label)).indexOf b) ∧
    tab3Render [⟨"Tim", "PERSON"⟩, ⟨"Apple", "ORG"⟩, ⟨"Cook", "PERSON"⟩,
        ⟨"Steve", "PERSON"⟩] = ViewOutput.content
      (bars [⟨"Tim", "PERSON"⟩, ⟨"Apple", "ORG"⟩, ⟨"Cook", "PERSON"⟩,
        ⟨"Steve", "PERSON"⟩])) :=
  c4_frequency_chart
    [⟨"Tim", "PERSON"⟩, ⟨"Apple", "ORG"⟩, ⟨"Cook", "PERSON"⟩,
     ⟨"Steve", "PERSON"⟩] (by decide)

/-- C5: for a non-empty entity sequence, each renderer's total — the number
of highlighted spans, the table row count, the sum of the bar counts across
categories, and the number of scatter points (for any enumeration of the
categories present) — equals the length of the entity sequence returned by
inference. -/
theorem c5_renderer_totals (ents : List Entity) (hne : ents ≠ []) :
    tab1Render ents = ViewOutput.content ents ∧
    tab2Render ents = ViewOutput.content (entitiesData ents, toCsv ents) ∧
    tab3Render ents = ViewOutput.content (bars ents) ∧
    tab4Render ents = ViewOutput.content
      (scatterFig (firstOccurrences (ents.map (fun e => e.label))) ents) ∧
    (entitiesData ents).length = ents.length ∧
    ((bars ents).map (fun b => b.height)).sum = ents.length ∧
    (∀ uniqueTypes : List String,
      (scatterFig uniqueTypes ents).1.length = ents.length) := by
  have hpos := List.length_pos.mpr hne
  refine ⟨rfl, ?_, ?_, ?_, ?_, ?_, ?_⟩
  · simp [tab2Render, hpos]
  · simp [tab3Render, hpos]
  · simp [tab4Render, hpos]
  · exact List.length_map _ _
  · rw [bars_map_height, sum_counts_firstOccurrences, List.length_map]
  · intro uniqueTypes
    simp [scatterFig]

/-- C5 (witness): a concrete three-entity analysis. -/
theorem c5_renderer_totals_witness :
    (tab1Render [⟨"Tim", "PERSON"⟩, ⟨"Apple", "ORG"⟩, ⟨"Cook", "PERSON"⟩] =
      ViewOutput.content [⟨"Tim", "PERSON"⟩, ⟨"Apple", "ORG"⟩,
        ⟨"Cook", "PERSON"⟩] ∧
    tab2Render [⟨"Tim", "PERSON"⟩, ⟨"Apple", "ORG"⟩, ⟨"Cook", "PERSON"⟩] =
      ViewOutput.content
        (entitiesData [⟨"Tim", "PERSON"⟩, ⟨"Apple", "ORG"⟩,
          ⟨"Cook", "PERSON"⟩],
         toCsv [⟨"Tim", "PERSON"⟩, ⟨"Apple", "ORG"⟩, ⟨"Cook", "PERSON"⟩]) ∧
    tab3Render [⟨"Tim", "PERSON"⟩, ⟨"Apple", "ORG"⟩, ⟨"Cook", "PERSON"⟩] =
      ViewOutput.content
        (bars [⟨"Tim", "PERSON"⟩, ⟨"Apple", "ORG"⟩, ⟨"Cook", "PERSON"⟩]) ∧
    tab4Render [⟨"Tim", "PERSON"⟩, ⟨"Apple", "ORG"⟩, ⟨"Cook", "PERSON"⟩] =
      ViewOutput.content
        (scatterFig (firstOccurrences
            (([⟨"Tim", "PERSON"⟩, ⟨"Apple", "ORG"⟩, ⟨"Cook", "PERSON"⟩] :
              List Entity).map (fun e => e.label)))
          [⟨"Tim", "PERSON"⟩, ⟨"Apple", "ORG"⟩, ⟨"Cook", "PERSON"⟩]) ∧
    (entitiesData [⟨"Tim", "PERSON"⟩, ⟨"Apple", "ORG"⟩,
        ⟨"Cook", "PERSON"⟩]).length = ([⟨"Tim", "PERSON"⟩, ⟨"Apple", "ORG"⟩,
        ⟨"Cook", "PERSON"⟩] : List Entity).length ∧
    ((bars [⟨"Tim", "PERSON"⟩, ⟨"Apple", "ORG"⟩, ⟨"Cook", "PERSON"⟩]).map
        (fun b => b.height)).sum = ([⟨"Tim", "PERSON"⟩, ⟨"Apple", "ORG"⟩,
        ⟨"Cook", "PERSON"⟩] : List Entity).length ∧
    (∀ uniqueTypes : List String,
      (scatterFig uniqueTypes [⟨"Tim", "PERSON"⟩, ⟨"Apple", "ORG"⟩,
        ⟨"Cook", "PERSON"⟩]).1.length = ([⟨"Tim", "PERSON"⟩, ⟨"Apple", "ORG"⟩,
        ⟨"Cook", "PERSON"⟩] : List Entity).length)) :=
  c5_renderer_totals
    [⟨"Tim", "PERSON"⟩, ⟨"Apple", "ORG"⟩, ⟨"Cook", "PERSON"⟩] (by decide)

/-- C6: for a non-empty entity sequence the Entity List tab offers the
two-column delimited export whose parse is the header row Entity,Type
followed by exactly one (text, category) row per detected entity, in
document order, with repeated entities kept. -/
theorem c6_export_format (ents : List Entity) (hne : ents ≠ []) :
    tab2Render ents = ViewOutput.content (entitiesData ents, toCsv ents) ∧
    parseCsv (toCsv ents) =
      some (("Entity", "Type") :: ents.map (fun e => (e.text, e.label))) := by
  have hpos := List.length_pos.mpr hne
  exact ⟨by simp [tab2Render, hpos], parseCsv_toCsv ents⟩

/-- C6 (witness): a concrete export whose entity texts contain the
delimiter, the quote character and a newline, with a repeated entity kept
twice. -/
theorem c6_export_format_witness :
    (tab2Render [⟨"Apple, Inc.", "ORG"⟩, ⟨"a\"b\nc", "X"⟩,
        ⟨"Tim", "PERSON"⟩, ⟨"Tim", "PERSON"⟩] = ViewOutput.content
      (entitiesData [⟨"Apple, Inc.", "ORG"⟩, ⟨"a\"b\nc", "X"⟩,
        ⟨"Tim", "PERSON"⟩, ⟨"Tim", "PERSON"⟩],
       toCsv [⟨"Apple, Inc.", "ORG"⟩, ⟨"a\"b\nc", "X"⟩,
        ⟨"Tim", "PERSON"⟩, ⟨"Tim", "PERSON"⟩]) ∧
    parseCsv (toCsv [⟨"Apple, Inc.", "ORG"⟩, ⟨"a\"b\nc", "X"⟩,
        ⟨"Tim", "PERSON"⟩, ⟨"Tim", "PERSON"⟩]) =
      some (("Entity", "Type") :: ([⟨"Apple, Inc.", "ORG"⟩, ⟨"a\"b\nc", "X"⟩,
        ⟨"Tim", "PERSON"⟩, ⟨"Tim", "PERSON"⟩] : List Entity).map
          (fun e => (e.text, e.label)))) :=
  c6_export_format
    [⟨"Apple, Inc.", "ORG"⟩, ⟨"a\"b\nc", "X"⟩, ⟨"Tim", "PERSON"⟩,
     ⟨"Tim", "PERSON"⟩] (by decide)

/-- C7: for every entity sequence — including texts containing the comma
delimiter or newline characters — parsing the export back reconstructs
exactly the same ordered list of (text, category) pairs after the header,
and the number of data rows equals the entity-sequence length. -/
theorem c7_export_roundtrip (ents : List Entity) :
    ∃ rows : List (String × String),
      parseCsv (toCsv ents) = some (("Entity", "Type") :: rows) ∧
      rows = ents.map (fun e => (e.text, e.label)) ∧
      rows.length = ents.length :=
  ⟨ents.map (fun e => (e.text, e.label)), parseCsv_toCsv ents, rfl,
    List.length_map _ _⟩

/-- C8: for a non-empty entity sequence and any duplicate-free enumeration
`uniqueTypes` of the categories present (the embedding of
`list(set(entity_types))`, whose order Python leaves unspecified), the
scatter view plots exactly one point per entity occurrence at x equal to its
document-order index and y equal to its category's ordinal, colors each
point with the configured color or the fallback, annotates it with the
entity text, and shows a legend with exactly one entry per distinct category
mapping color to category; the ordinal assignment separates distinct
categories. -/
theorem c8_scatter_view (ents : List Entity) (uniqueTypes : List String)
    (hne : ents ≠ []) (hnd : uniqueTypes.Nodup)
    (hmem : ∀ t, t ∈ uniqueTypes ↔ t ∈ ents.map (fun e => e.label)) :
    (scatterFig uniqueTypes ents).1.length = ents.length ∧
    (∀ i (hi1 : i < ents.length)
        (hi2 : i < (scatterFig uniqueTypes ents).1.length),
      ((scatterFig uniqueTypes ents).1.get ⟨i, hi2⟩).x = i ∧
      ((scatterFig uniqueTypes ents).1.get ⟨i, hi2⟩).y =
        uniqueTypes.indexOf (ents.get ⟨i, hi1⟩).label ∧
      ((scatterFig uniqueTypes ents).1.get ⟨i, hi2⟩).color =
        colorFor (ents.get ⟨i, hi1⟩).label ∧
      ((scatterFig uniqueTypes ents).1.get ⟨i, hi2⟩).annotatedText =
        (ents.get ⟨i, hi1⟩).text) ∧
    (∀ t1 ∈ uniqueTypes, ∀ t2 ∈ uniqueTypes,
      uniqueTypes.indexOf t1 = uniqueTypes.indexOf t2 → t1 = t2) ∧
    (scatterFig uniqueTypes ents).2.map (fun le => le.label) = uniqueTypes ∧
    ((scatterFig uniqueTypes ents).2.map (fun le => le.label)).Nodup ∧
    (∀ t, t ∈ (scatterFig uniqueTypes ents).2.map (fun le => le.label) ↔
      t ∈ ents.map (fun e => e.label)) ∧
    (∀ le ∈ (scatterFig uniqueTypes ents).2, le.color = colorFor le.label) ∧
    tab4Render ents = ViewOutput.content
      (scatterFig (firstOccurrences (ents.map (fun e => e.label))) ents) := by
  have hpos := List.length_pos.mpr hne
  have hlegend : (scatterFig uniqueTypes ents).2.map (fun le => le.label) =
      uniqueTypes := by
    unfold scatterFig
    rw [List.map_map]
    exact (List.map_congr_left (fun t _ => rfl)).trans (List.map_id _)
  refine ⟨by simp [scatterFig], ?_, ?_, hlegend, ?_, ?_, ?_, ?_⟩
  · intro i hi1 hi2
    refine ⟨?_, ?_, ?_, ?_⟩ <;>
      simp [scatterFig, List.get_eq_getElem, List.enum_eq_enumFrom,
        List.getElem_enumFrom]
  · intro t1 h1 t2 h2 heq
    have g1 : uniqueTypes.indexOf t1 < uniqueTypes.length :=
      List.indexOf_lt_length.mpr h1
    have g2 : uniqueTypes.indexOf t2 < uniqueTypes.length :=
      List.indexOf_lt_length.mpr h2
    calc t1 = uniqueTypes.get ⟨uniqueTypes.indexOf t1, g1⟩ :=
          (List.indexOf_get g1).symm
      _ = uniqueTypes.get ⟨uniqueTypes.indexOf t2, g2⟩ := by
          congr 1
          exact Fin.ext heq
      _ = t2 := List.indexOf_get g2
  · rw [hlegend]
    exact hnd
  · intro t
    rw [hlegend]
    exact hmem t
  · intro le hle
    unfold scatterFig at hle
    simp only [List.mem_map] at hle
    obtain ⟨t, _, rfl⟩ := hle
    rfl
  · simp [tab4Render, hpos]

/-- C8 (witness): a concrete scatter over three entities and the
two-category enumeration ORG before PERSON. -/
theorem c8_scatter_view_witness :
    ((scatterFig ["ORG", "PERSON"] [⟨"Tim", "PERSON"⟩, ⟨"Apple", "ORG"⟩,
        ⟨"Cook", "PERSON"⟩]).1.length = ([⟨"Tim", "PERSON"⟩, ⟨"Apple", "ORG"⟩,
        ⟨"Cook", "PERSON"⟩] : List Entity).length ∧
    (∀ i (hi1 : i < ([⟨"Tim", "PERSON"⟩, ⟨"Apple", "ORG"⟩,
        ⟨"Cook", "PERSON"⟩] : List Entity).length)
        (hi2 : i < (scatterFig ["ORG", "PERSON"] [⟨"Tim", "PERSON"⟩,
          ⟨"Apple", "ORG"⟩, ⟨"Cook", "PERSON"⟩]).1.length),
      ((scatterFig ["ORG", "PERSON"] [⟨"Tim", "PERSON"⟩, ⟨"Apple", "ORG"⟩,
        ⟨"Cook", "PERSON"⟩]).1.get ⟨i, hi2⟩).x = i ∧
      ((scatterFig ["ORG", "PERSON"] [⟨"Tim", "PERSON"⟩, ⟨"Apple", "ORG"⟩,
        ⟨"Cook", "PERSON"⟩]).1.get ⟨i, hi2⟩).y =
        (["ORG", "PERSON"] : List String).indexOf
          (([⟨"Tim", "PERSON"⟩, ⟨"Apple", "ORG"⟩, ⟨"Cook", "PERSON"⟩] :
            List Entity).get ⟨i, hi1⟩).label ∧
      ((scatterFig ["ORG", "PERSON"] [⟨"Tim", "PERSON"⟩, ⟨"Apple", "ORG"⟩,
        ⟨"Cook", "PERSON"⟩]).1.get ⟨i, hi2⟩).color =
        colorFor (([⟨"Tim", "PERSON"⟩, ⟨"Apple", "ORG"⟩, ⟨"Cook", "PERSON"⟩] :
            List Entity).get ⟨i, hi1⟩).label ∧
      ((scatterFig ["ORG", "PERSON"] [⟨"Tim", "PERSON"⟩, ⟨"Apple", "ORG"⟩,
        ⟨"Cook", "PERSON"⟩]).1.get ⟨i, hi2⟩).annotatedText =
        (([⟨"Tim", "PERSON"⟩, ⟨"Apple", "ORG"⟩, ⟨"Cook", "PERSON"⟩] :
            List Entity).get ⟨i, hi1⟩).text) ∧
    (∀ t1 ∈ (["ORG", "PERSON"] : List String),
      ∀ t2 ∈ (["ORG", "PERSON"] : List String),
      (["ORG", "PERSON"] : List String).indexOf t1 =
        (["ORG", "PERSON"] : List String).indexOf t2 → t1 = t2) ∧
    (scatterFig ["ORG", "PERSON"] [⟨"Tim", "PERSON"⟩, ⟨"Apple", "ORG"⟩,
        ⟨"Cook", "PERSON"⟩]).2.map (fun le => le.label) = ["ORG", "PERSON"] ∧
    ((scatterFig ["ORG", "PERSON"] [⟨"Tim", "PERSON"⟩, ⟨"Apple", "ORG"⟩,
        ⟨"Cook", "PERSON"⟩]).2.map (fun le => le.label)).Nodup ∧
    (∀ t, t ∈ (scatterFig ["ORG", "PERSON"] [⟨"Tim", "PERSON"⟩,
        ⟨"Apple", "ORG"⟩, ⟨"Cook", "PERSON"⟩]).2.map (fun le => le.label) ↔
      t ∈ ([⟨"Tim", "PERSON"⟩, ⟨"Apple", "ORG"⟩, ⟨"Cook", "PERSON"⟩] :
        List Entity).map (fun e => e.label)) ∧
    (∀ le ∈ (scatterFig ["ORG", "PERSON"] [⟨"Tim", "PERSON"⟩,
        ⟨"Apple", "ORG"⟩, ⟨"Cook", "PERSON"⟩]).2,
      le.color = colorFor le.label) ∧
    tab4Render [⟨"Tim", "PERSON"⟩, ⟨"Apple", "ORG"⟩, ⟨"Cook", "PERSON"⟩] =
      ViewOutput.content (scatterFig (firstOccurrences
          (([⟨"Tim", "PERSON"⟩, ⟨"Apple", "ORG"⟩, ⟨"Cook", "PERSON"⟩] :
            List Entity).map (fun e => e.label)))
        [⟨"Tim", "PERSON"⟩, ⟨"Apple", "ORG"⟩, ⟨"Cook", "PERSON"⟩])) :=
  c8_scatter_view
    [⟨"Tim", "PERSON"⟩, ⟨"Apple", "ORG"⟩, ⟨"Cook", "PERSON"⟩]
    ["ORG", "PERSON"] (by decide) (by decide)
    (by
      intro t
      simp only [List.map_cons, List.map_nil, List.mem_cons,
        List.not_mem_nil, or_false]
      tauto)

/-- C9: the session model cache loads each identifier at most once — a miss
followed by a successful load writes the cache exactly once for that
identifier, and a second request for the same identifier returns the cached
inference object with zero loader invocations and an unchanged cache. -/
theorem c9_cache_loads_once {μ : Type} (loader : String → Except String μ)
    (cache : List (String × μ)) (name : String) (m : μ)
    (h1 : cache.lookup name = none) (h2 : loader name = Except.ok m) :
    cachedLoad loader cache name =
      (Except.ok m, cache ++ [(name, m)], 1) ∧
    cachedLoad loader (cache ++ [(name, m)]) name =
      (Except.ok m, cache ++ [(name, m)], 0) := by
  constructor
  · simp [cachedLoad, h1, h2]
  · simp [cachedLoad, lookup_append_self cache name m h1]

/-- C9 (witness): a concrete loader and an initially empty cache. -/
theorem c9_cache_loads_once_witness :
    cachedLoad (fun n => if n = "en_core_web_sm" then Except.ok 7
        else Except.error "no") [] "en_core_web_sm" =
      (Except.ok 7, [("en_core_web_sm", 7)], 1) ∧
    cachedLoad (fun n => if n = "en_core_web_sm" then Except.ok 7
        else Except.error "no") [("en_core_web_sm", 7)] "en_core_web_sm" =
      (Except.ok 7, [("en_core_web_sm", 7)], 0) :=
  c9_cache_loads_once
    (fun n => if n = "en_core_web_sm" then Except.ok 7 else Except.error "no")
    [] "en_core_web_sm" 7 rfl (by simp)

end NER
